import Mathlib

/-!
# Verification of the event-sauce event/entity lifecycle protocol

Shallow embedding of the `event-sauce` crates: the `Event`/`DBEvent` data
model, the six event builders (create, update, delete, purge, action,
conflict), the aggregation protocol, conflict detection, and the sqlx
storage adapter's transactional persist.

Modelling conventions:
* `Uuid` values and `DateTime<Utc>` timestamps are modelled as `Nat`.
  Calls to `Uuid::new_v4()` / `Utc::now()` inside a Rust function become
  explicit `Nat` parameters of the corresponding Lean function (one
  parameter per call site), so nondeterminism is made explicit.
* Rust trait dictionaries (`Entity`, `EventData`) become explicit record
  arguments (`EntityImpl`, `EventDataImpl`).
* `serde_json::Value` is the inductive `Json`; serde serializers and
  deserializers are explicit codec functions, with serde's round-trip law
  taken as a hypothesis where one is needed and discharged on concrete
  codecs in witnesses.
* `Result<T, E>` becomes `Except E T`; `std::convert::Infallible` becomes
  `Empty`.
-/

namespace EventSauce

/-- `serde_json::Value`: a generic tree of nulls, booleans, numbers,
strings, arrays and string-keyed objects. -/
inductive Json : Type where
  | null : Json
  | bool (b : Bool) : Json
  | num (n : Int) : Json
  | str (s : String) : Json
  | arr (items : List Json) : Json
  | obj (fields : List (String × Json)) : Json
deriving Repr, BEq

/-- Look up a field of a JSON object by key, as serde does when decoding a
struct field from a map (first matching key wins). -/
def Json.lookup (fields : List (String × Json)) (key : String) : Option Json :=
  (fields.find? (fun p => p.1 == key)).map (fun p => p.2)

/-- The `Entity` trait of `src/event-sauce/src/lib.rs`: a logical type name
(`ENTITY_TYPE`, exposed as `entity_type()`) and an id accessor. -/
structure EntityImpl (E : Type) where
  ENTITY_TYPE : String
  entity_id : E → Nat

/-- The method-carrying part of the `EventData` trait: the event type tag of
a payload value. -/
structure EventDataImpl (D : Type) where
  event_type : D → String

/-- `Event<D>` from `src/event-sauce/src/event.rs`. -/
structure Event (D : Type) where
  id : Nat
  event_type : String
  entity_type : String
  entity_id : Nat
  session_id : Option Nat
  purger_id : Option Nat
  data : Option D
  created_at : Nat
  purged_at : Option Nat
deriving Repr, DecidableEq

/-- `ConflictData<EDA, EDC>` from `src/event-sauce/src/lib.rs`: the already
applied event paired with the conflicting payload that could not be
applied. Its `EventData::event_type` is the constant `"ConflictData"`. -/
structure ConflictData (EDA EDC : Type) where
  applied_event : Event EDA
  conflicting_event_data : EDC
deriving Repr, DecidableEq

/-- `CreateEventBuilder<D>` (`src/event-sauce/src/event_builder/create_event.rs`).
`new` seeds `entity_id` with a fresh id (`Uuid::new_v4()`), passed explicitly. -/
structure CreateEventBuilder (D : Type) where
  payload : D
  session_id : Option Nat
  entity_id : Nat

/-- `CreateEventBuilder::new`: fresh generated entity id, no session. -/
def CreateEventBuilder.new (payload : D) (freshEntityId : Nat) : CreateEventBuilder D :=
  { payload := payload, session_id := none, entity_id := freshEntityId }

/-- The chainable `CreateEventBuilder::entity_id` setter. -/
def CreateEventBuilder.set_entity_id (b : CreateEventBuilder D) (entity_id : Nat) :
    CreateEventBuilder D :=
  { b with entity_id := entity_id }

/-- The chainable `EventBuilder::session_id` setter (create builder). -/
def CreateEventBuilder.set_session_id (b : CreateEventBuilder D) (session_id : Nat) :
    CreateEventBuilder D :=
  { b with session_id := some session_id }

/-- `CreateEventBuilder::build`: fresh event id and `Utc::now()` are the
`freshId` / `now` parameters. -/
def CreateEventBuilder.build (di : EventDataImpl D) (ei : EntityImpl E)
    (b : CreateEventBuilder D) (freshId now : Nat) : Event D :=
  { id := freshId
    event_type := di.event_type b.payload
    entity_type := ei.ENTITY_TYPE
    entity_id := b.entity_id
    session_id := b.session_id
    purger_id := none
    created_at := now
    purged_at := none
    data := some b.payload }

/-- `UpdateEventBuilder<D>` (`src/event-sauce/src/event_builder/update_event.rs`). -/
structure UpdateEventBuilder (D : Type) where
  payload : D
  session_id : Option Nat

/-- `UpdateEventBuilder::new` (`EventBuilder` impl). -/
def UpdateEventBuilder.new (payload : D) : UpdateEventBuilder D :=
  { payload := payload, session_id := none }

/-- The chainable `EventBuilder::session_id` setter (update builder). -/
def UpdateEventBuilder.set_session_id (b : UpdateEventBuilder D) (session_id : Nat) :
    UpdateEventBuilder D :=
  { b with session_id := some session_id }

/-- `UpdateEventBuilder::build_with_entity_id`: entity id supplied by the
caller (used by `UpdateEntityBuilder::try_update`). -/
def UpdateEventBuilder.build_with_entity_id (di : EventDataImpl D) (ei : EntityImpl E)
    (b : UpdateEventBuilder D) (entity_id : Nat) (freshId now : Nat) : Event D :=
  { id := freshId
    event_type := di.event_type b.payload
    entity_type := ei.ENTITY_TYPE
    entity_id := entity_id
    session_id := b.session_id
    purger_id := none
    created_at := now
    purged_at := none
    data := some b.payload }

/-- `UpdateEventBuilder::build`: the entity id is read from the target
entity, never from the builder. -/
def UpdateEventBuilder.build (di : EventDataImpl D) (ei : EntityImpl E)
    (b : UpdateEventBuilder D) (entity : E) (freshId now : Nat) : Event D :=
  { id := freshId
    event_type := di.event_type b.payload
    entity_type := ei.ENTITY_TYPE
    entity_id := ei.entity_id entity
    session_id := b.session_id
    purger_id := none
    created_at := now
    purged_at := none
    data := some b.payload }

/-- `DeleteEventBuilder<D>` (`src/event-sauce/src/event_builder/delete_event.rs`). -/
structure DeleteEventBuilder (D : Type) where
  payload : D
  session_id : Option Nat

/-- `DeleteEventBuilder::build`: entity id read from the target entity. -/
def DeleteEventBuilder.build (di : EventDataImpl D) (ei : EntityImpl E)
    (b : DeleteEventBuilder D) (entity : E) (freshId now : Nat) : Event D :=
  { id := freshId
    event_type := di.event_type b.payload
    entity_type := ei.ENTITY_TYPE
    entity_id := ei.entity_id entity
    session_id := b.session_id
    purger_id := none
    created_at := now
    purged_at := none
    data := some b.payload }

/-- `DeleteEventBuilder::build_with_entity_id` (used by
`DeleteEntityBuilder::try_delete`). -/
def DeleteEventBuilder.build_with_entity_id (di : EventDataImpl D) (ei : EntityImpl E)
    (b : DeleteEventBuilder D) (entity_id : Nat) (freshId now : Nat) : Event D :=
  { id := freshId
    event_type := di.event_type b.payload
    entity_type := ei.ENTITY_TYPE
    entity_id := entity_id
    session_id := b.session_id
    purger_id := none
    created_at := now
    purged_at := none
    data := some b.payload }

/-- `PurgeEventBuilder<D>` (`src/event-sauce/src/event_builder/purge_event.rs`). -/
structure PurgeEventBuilder (D : Type) where
  session_id : Option Nat
  payload : D

/-- `PurgeEventBuilder::new`. -/
def PurgeEventBuilder.new (payload : D) : PurgeEventBuilder D :=
  { session_id := none, payload := payload }

/-- The chainable `EventBuilder::session_id` setter (purge builder). -/
def PurgeEventBuilder.set_session_id (b : PurgeEventBuilder D) (session_id : Nat) :
    PurgeEventBuilder D :=
  { b with session_id := some session_id }

/-- `PurgeEventBuilder::build_with_entity_id`: the built event scrubs the
payload (`data = None`), stamps `purged_at = Some(Utc::now())` and copies
`purger_id` from the builder's `session_id`. The source calls `Utc::now()`
twice (once for `created_at`, once for `purged_at`), hence the two time
parameters. -/
def PurgeEventBuilder.build_with_entity_id (di : EventDataImpl D) (ei : EntityImpl E)
    (b : PurgeEventBuilder D) (entity_id : Nat) (freshId createdNow purgedNow : Nat) :
    Event D :=
  { data := none
    id := freshId
    event_type := di.event_type b.payload
    entity_type := ei.ENTITY_TYPE
    entity_id := entity_id
    session_id := b.session_id
    purger_id := b.session_id
    created_at := createdNow
    purged_at := some purgedNow }

/-- `PurgeEventBuilder::build`: delegates to `build_with_entity_id` with the
target entity's id. -/
def PurgeEventBuilder.build (di : EventDataImpl D) (ei : EntityImpl E)
    (b : PurgeEventBuilder D) (entity : E) (freshId createdNow purgedNow : Nat) : Event D :=
  b.build_with_entity_id di ei (ei.entity_id entity) freshId createdNow purgedNow

/-- `ActionEventBuilder<EDENUM>` (`src/event-sauce/src/event_builder/action_event.rs`). -/
structure ActionEventBuilder (D : Type) where
  payload : D
  session_id : Option Nat

/-- `ActionEventBuilder::new`. -/
def ActionEventBuilder.new (payload : D) : ActionEventBuilder D :=
  { payload := payload, session_id := none }

/-- `ActionEventBuilder::build`: entity id comes from the entity when one is
present, else a freshly generated id (`entity.as_ref().map_or(Uuid::new_v4(),
|e| e.entity_id())`). -/
def ActionEventBuilder.build (di : EventDataImpl D) (ei : EntityImpl E)
    (b : ActionEventBuilder D) (entity : Option E) (freshId freshEntityId now : Nat) :
    Event D :=
  { id := freshId
    event_type := di.event_type b.payload
    entity_type := ei.ENTITY_TYPE
    entity_id := match entity with
      | some e => ei.entity_id e
      | none => freshEntityId
    session_id := b.session_id
    purger_id := none
    created_at := now
    purged_at := none
    data := some b.payload }

/-- `ConflictEventBuilder<EDA, EDC>`
(`src/event-sauce/src/event_builder/conflict_event.rs`). -/
structure ConflictEventBuilder (EDA EDC : Type) where
  payload : ConflictData EDA EDC
  session_id : Option Nat

/-- `ConflictEventBuilder::new`. -/
def ConflictEventBuilder.new (payload : ConflictData EDA EDC) :
    ConflictEventBuilder EDA EDC :=
  { payload := payload, session_id := none }

/-- `ConflictEventBuilder::build`: entity id read from the supplied entity.
`self.payload.event_type()` is the constant `"ConflictData"`
(`EventData for ConflictData` in `lib.rs`). -/
def ConflictEventBuilder.build (ei : EntityImpl E) (b : ConflictEventBuilder EDA EDC)
    (entity : E) (freshId now : Nat) : Event (ConflictData EDA EDC) :=
  { id := freshId
    event_type := "ConflictData"
    entity_type := ei.ENTITY_TYPE
    entity_id := ei.entity_id entity
    session_id := b.session_id
    purger_id := none
    created_at := now
    purged_at := none
    data := some b.payload }

/-- `ConflictEventBuilder::build_with_entity_id`: the variant used by
`ConflictEntityBuilder::try_flag_conflict`; it takes no entity and instead
derives the entity id from the conflict payload's `applied_event.entity_id`. -/
def ConflictEventBuilder.build_with_entity_id (ei : EntityImpl E)
    (b : ConflictEventBuilder EDA EDC) (freshId now : Nat) : Event (ConflictData EDA EDC) :=
  { id := freshId
    event_type := "ConflictData"
    entity_type := ei.ENTITY_TYPE
    entity_id := b.payload.applied_event.entity_id
    session_id := b.session_id
    purger_id := none
    created_at := now
    purged_at := none
    data := some b.payload }

/-- `StorageBuilder<Ent, ED>` (`src/event-sauce/src/lib.rs`): an
event/entity pair ready for atomic persistence. -/
structure StorageBuilder (Ent D : Type) where
  event : Event D
  entity : Ent
deriving Repr, DecidableEq

/-- `StorageBuilder::new`. -/
def StorageBuilder.new (entity : Ent) (event : Event D) : StorageBuilder Ent D :=
  { event := event, entity := entity }

/-- `CreateEntityBuilder::try_create` (`src/event-sauce/src/lib.rs`): build
the creation event, aggregate-create the entity, pair them. The
`try_aggregate_create` dictionary argument is the entity's
`AggregateCreate` impl. -/
def CreateEntityBuilder.try_create (di : EventDataImpl D) (ei : EntityImpl E)
    (try_aggregate_create : Event D → Except Err E)
    (builder : CreateEventBuilder D) (freshId now : Nat) :
    Except Err (StorageBuilder E D) :=
  let event := builder.build di ei freshId now
  match try_aggregate_create event with
  | Except.error e => Except.error e
  | Except.ok entity => Except.ok (StorageBuilder.new entity event)

/-- `UpdateEntityBuilder::try_update` (`src/event-sauce/src/lib.rs`): build
the event with the current entity's id
(`builder.into().build_with_entity_id(self.entity_id())`), aggregate-update,
pair the new entity with the event. -/
def UpdateEntityBuilder.try_update (di : EventDataImpl D) (ei : EntityImpl E)
    (try_aggregate_update : E → Event D → Except Err E)
    (self : E) (builder : UpdateEventBuilder D) (freshId now : Nat) :
    Except Err (StorageBuilder E D) :=
  let event := builder.build_with_entity_id di ei (ei.entity_id self) freshId now
  match try_aggregate_update self event with
  | Except.error e => Except.error e
  | Except.ok entity => Except.ok (StorageBuilder.new entity event)

/-- `ConflictEntityBuilder::try_flag_conflict` (`src/event-sauce/src/lib.rs`):
the event is built with `ConflictEventBuilder::build_with_entity_id()` (no
entity argument), then routed through the entity's `AggregateConflict` impl. -/
def ConflictEntityBuilder.try_flag_conflict (ei : EntityImpl E)
    (try_aggregate_conflict : E → Event (ConflictData EDA EDC) → Except Err E)
    (self : E) (builder : ConflictEventBuilder EDA EDC) (freshId now : Nat) :
    Except Err (StorageBuilder E (ConflictData EDA EDC)) :=
  let event := builder.build_with_entity_id ei freshId now
  match try_aggregate_conflict self event with
  | Except.error e => Except.error e
  | Except.ok entity => Except.ok (StorageBuilder.new entity event)

/-!
## The first-revision crate (`src/src/`)

The repository also contains an earlier revision of the crate under
`src/src/`, whose `Event`/`DBEvent` conversions are the subject of the
round-trip property: there `Event<D>.data` is a mandatory `D` and
`DBEvent.data` a mandatory `serde_json::Value`.
-/

/-- `Event<D>` of the first-revision crate (`src/src/event.rs`). -/
structure EventV1 (D : Type) where
  id : Nat
  event_type : String
  entity_type : String
  entity_id : Nat
  session_id : Nat
  data : D
  created_at : Nat
deriving Repr, DecidableEq

/-- `DBEvent` of the first-revision crate (`src/src/db_event.rs`). -/
structure DBEventV1 where
  id : Nat
  event_type : String
  entity_type : String
  entity_id : Nat
  data : Json
  session_id : Nat
  created_at : Nat
deriving Repr, BEq

/-- `TryFrom<Event<S>> for DBEvent` (`src/src/db_event.rs`): serialize the
`data` field with `serde_json::to_value`, copy every other field. The
serializer is the explicit `to_value` codec argument. -/
def DBEventV1.try_from (to_value : D → Except String Json) (other : EventV1 D) :
    Except String DBEventV1 :=
  match to_value other.data with
  | Except.error e => Except.error e
  | Except.ok data => Except.ok
    { id := other.id
      event_type := other.event_type
      entity_type := other.entity_type
      entity_id := other.entity_id
      session_id := other.session_id
      created_at := other.created_at
      data := data }

/-- `TryFrom<DBEvent> for Event<S>` (`src/src/event.rs`): deserialize the
`data` field with `serde_json::from_value`, copy every other field. -/
def EventV1.try_from (from_value : Json → Except String D) (other : DBEventV1) :
    Except String (EventV1 D) :=
  match from_value other.data with
  | Except.error e => Except.error e
  | Except.ok data => Except.ok
    { id := other.id
      event_type := other.event_type
      entity_type := other.entity_type
      entity_id := other.entity_id
      session_id := other.session_id
      created_at := other.created_at
      data := data }

/-!
## `DBEvent` of the current crate and its conversions
-/

/-- `DBEvent` of the current crate. Modelled from the spec: the struct's own
source file is absent from `src/` (only its users are present); the spec says
it has "same fields as `Event`, but `data` is a structurally-typed any
value", and its construction in `src/event-sauce/tests/db_event_to_event.rs`
together with the persisted schema in `src/storage-sqlx/src/lib.rs` fixes
the exact field list, including the `sequence_number` column. -/
structure DBEvent where
  id : Nat
  sequence_number : Option Int
  event_type : String
  entity_type : String
  entity_id : Nat
  session_id : Option Nat
  purger_id : Option Nat
  created_at : Nat
  purged_at : Option Nat
  data : Option Json
deriving Repr, BEq

/-- serde's deserializer for `Option<S>` given the one for `S`: JSON `null`
decodes to `None`, any other value must decode as an `S` and is wrapped in
`Some`. -/
def from_value_option (from_value : Json → Except String D) :
    Json → Except String (Option D)
  | Json.null => Except.ok none
  | j => (from_value j).map some

/-- `TryFrom<DBEvent> for Event<S>` of the current crate
(`src/event-sauce/src/event.rs`, lines 189–207): when `other.data` is
`Some(d)`, `d` is deserialized *at type `Option<S>`* (`let data: Option<S> =
serde_json::from_value(d)?`); when it is `None`, `data` is `None` without
touching the codec. Every other field is copied. -/
def Event.try_from (from_value_opt : Json → Except String (Option D)) (other : DBEvent) :
    Except String (Event D) :=
  match
    match other.data with
    | some d => from_value_opt d
    | none => Except.ok none
  with
  | Except.error e => Except.error e
  | Except.ok (data : Option D) => Except.ok
    { id := other.id
      event_type := other.event_type
      entity_type := other.entity_type
      entity_id := other.entity_id
      session_id := other.session_id
      purger_id := other.purger_id
      created_at := other.created_at
      purged_at := other.purged_at
      data := data }

/-- `Event::try_enum_event_from_db_event`
(`src/event-sauce/src/event.rs`, lines 59–75): build the intermediate value
`json!({ "data": db_event.data, "event_type": db_event.event_type })` and
deserialize the enum payload from it. For an enum declared
`#[serde(tag = "event_type", content = "data")]` the derived deserializer is
adjacently tagged: it picks the variant named by the `event_type` field and
decodes the `data` field with that variant's payload deserializer; this
tag-driven decode step is the explicit `from_tagged` codec argument. A
`db_event.data` of `None` serializes to JSON `null` in the intermediate
object, hence `.getD Json.null`. -/
def Event.try_enum_event_from_db_event
    (from_tagged : String → Json → Except String EDENUM) (db_event : DBEvent) :
    Except String (Event EDENUM) :=
  match from_tagged db_event.event_type (db_event.data.getD Json.null) with
  | Except.error e => Except.error e
  | Except.ok enum_data => Except.ok
    { id := db_event.id
      event_type := db_event.event_type
      entity_type := db_event.entity_type
      entity_id := db_event.entity_id
      session_id := db_event.session_id
      purger_id := db_event.purger_id
      created_at := db_event.created_at
      purged_at := db_event.purged_at
      data := some enum_data }

/-- `Event::into_event` (`src/event-sauce/src/event.rs`): repackage an
enum-typed event as a concrete-typed event, with the payload supplied by the
caller; every other field is copied. -/
def Event.into_event (self : Event EDENUM) (event_data : Option ED) : Event ED :=
  { id := self.id
    event_type := self.event_type
    entity_type := self.entity_type
    entity_id := self.entity_id
    session_id := self.session_id
    purger_id := self.purger_id
    created_at := self.created_at
    purged_at := self.purged_at
    data := event_data }

/-!
## The `User` test model (`src/event-sauce/tests/conflict_check.rs`)

The enum-dispatch, action, and conflict claims are decided by the concrete
`User` entity and `UserEventData` payload enum defined in the crate's tests.
-/

/-- The `User` entity of `tests/conflict_check.rs`: id, name, and the
"has-unresolved-conflict" flag. -/
structure User where
  id : Nat
  name : String
  conflicted : Bool
deriving Repr, DecidableEq

/-- `User`'s `Entity` impl: `entity_name = "users"`, id field `id`. -/
def User.entityImpl : EntityImpl User :=
  { ENTITY_TYPE := "users", entity_id := User.id }

/-- `UserCreated` payload (`tests/conflict_check.rs`). -/
structure UserCreated where
  name : String
deriving Repr, DecidableEq

/-- `UserUpdated` payload — structurally identical to `UserCreated`. -/
structure UserUpdated where
  name : String
deriving Repr, DecidableEq

/-- `UserDeleted` payload: a unit struct. -/
inductive UserDeleted : Type where
  | mk : UserDeleted
deriving Repr, DecidableEq

/-- `UserCreated`'s `EventData::event_type`. -/
def UserCreated.eventDataImpl : EventDataImpl UserCreated :=
  { event_type := fun _ => "UserCreated" }

/-- `UserUpdated`'s `EventData::event_type`. -/
def UserUpdated.eventDataImpl : EventDataImpl UserUpdated :=
  { event_type := fun _ => "UserUpdated" }

/-- `UserDeleted`'s `EventData::event_type`. -/
def UserDeleted.eventDataImpl : EventDataImpl UserDeleted :=
  { event_type := fun _ => "UserDeleted" }

/-- The `UserEventData` enum of event payloads
(`#[serde(tag = "event_type", content = "data")]`). -/
inductive UserEventData : Type where
  | UserCreated (data : UserCreated)
  | UserUpdated (data : UserUpdated)
  | UserDeleted (data : UserDeleted)
deriving Repr, DecidableEq

/-- `UserEventData`'s `EventData::event_type`: dispatch to the variant's
payload. -/
def UserEventData.event_type : UserEventData → String
  | UserEventData.UserCreated d => UserCreated.eventDataImpl.event_type d
  | UserEventData.UserUpdated d => UserUpdated.eventDataImpl.event_type d
  | UserEventData.UserDeleted d => UserDeleted.eventDataImpl.event_type d

/-- `UserEventData`'s `EventData` dictionary. -/
def UserEventData.eventDataImpl : EventDataImpl UserEventData :=
  { event_type := UserEventData.event_type }

/-- The error enum of `tests/conflict_check.rs`. -/
inductive EventError : Type where
  | EmptyEventData (entity : String) (event : String)
  | MissingEntity (entity : String) (action : String)
  | ConversionError (source : String) (target : String)
  | Infallible
deriving Repr, DecidableEq

/-- `AggregateCreate<UserCreated> for User`: requires a payload
(`EmptyEventData` otherwise), takes the id from the event and the name from
the payload. -/
def User.try_aggregate_create (event : Event UserCreated) : Except EventError User :=
  match event.data with
  | none => Except.error (EventError.EmptyEventData "User" "UserCreated")
  | some data => Except.ok { id := event.entity_id, name := data.name, conflicted := false }

/-- `AggregateUpdate<UserUpdated> for User`: requires a payload, replaces the
name and clears the conflict flag. -/
def User.try_aggregate_update (_self : User) (event : Event UserUpdated) :
    Except EventError User :=
  match event.data with
  | none => Except.error (EventError.EmptyEventData "User" "UserUpdated")
  | some data => Except.ok { id := event.entity_id, name := data.name, conflicted := false }

/-- `AggregateDelete<UserDeleted> for User`: the trait's default no-op
implementation, `Ok(self)` with `Error = Infallible`. -/
def User.try_aggregate_delete (self : User) (_event : Event UserDeleted) :
    Except Empty User :=
  Except.ok self

/-- `AggregateConflict<EDA, EDC> for User`: flips the `conflicted` flag,
leaving every other field as in `..self`; `Error = Infallible`. -/
def User.try_aggregate_conflict (self : User) (_event : Event (ConflictData EDA EDC)) :
    Except Empty User :=
  Except.ok { self with conflicted := true }

/-- `ConflictCheck<UserEventData> for UserEventData`: creations never
conflict; updates and deletions always conflict with the applied event. -/
def UserEventData.check_conflict (self : UserEventData)
    (applied_event : Event UserEventData) :
    Except (ConflictData UserEventData UserEventData) UserEventData :=
  match self with
  | UserEventData.UserCreated _ => Except.ok self
  | UserEventData.UserUpdated _ =>
      Except.error { applied_event := applied_event, conflicting_event_data := self }
  | UserEventData.UserDeleted _ =>
      Except.error { applied_event := applied_event, conflicting_event_data := self }

/-- `Event::try_into_variant::<UserCreated>`. Modelled from the spec: the
method itself is absent from `src/` (the tests call it); per §4.2 and the
tests' `TryFrom<UserEventData>` impls it narrows the enum payload to the
named variant — succeeding exactly when the payload is that variant — and
repackages the event via the field-copying conversion (`into_event`). -/
def Event.try_into_variant_UserCreated (event : Event UserEventData) :
    Except Unit (Event UserCreated) :=
  match event.data with
  | some (UserEventData.UserCreated d) => Except.ok (event.into_event (some d))
  | _ => Except.error ()

/-- `Event::try_into_variant::<UserUpdated>`. Modelled from the spec: see
`Event.try_into_variant_UserCreated`. -/
def Event.try_into_variant_UserUpdated (event : Event UserEventData) :
    Except Unit (Event UserUpdated) :=
  match event.data with
  | some (UserEventData.UserUpdated d) => Except.ok (event.into_event (some d))
  | _ => Except.error ()

/-- `Event::try_into_variant::<UserDeleted>`. Modelled from the spec: see
`Event.try_into_variant_UserCreated`. -/
def Event.try_into_variant_UserDeleted (event : Event UserEventData) :
    Except Unit (Event UserDeleted) :=
  match event.data with
  | some (UserEventData.UserDeleted d) => Except.ok (event.into_event (some d))
  | _ => Except.error ()

/-- `AggregateAction<UserEventData> for User`
(`tests/conflict_check.rs`, lines 55–119): dispatch on the payload variant
and delegate to the matching aggregation; a `None` payload with
`Some(entity)` is a no-op, a `None` payload with no entity is
`MissingEntity("User", "N/A")`. -/
def User.try_aggregate_action (entity : Option User) (event : Event UserEventData) :
    Except EventError User :=
  match event.data with
  | some data =>
    match data with
    | UserEventData.UserCreated _ =>
      match event.try_into_variant_UserCreated with
      | Except.error _ =>
          Except.error (EventError.ConversionError "Event<UserEventData>" "Event<UserCreated>")
      | Except.ok create_event => User.try_aggregate_create create_event
    | UserEventData.UserUpdated _ =>
      match event.try_into_variant_UserUpdated with
      | Except.error _ =>
          Except.error (EventError.ConversionError "Event<UserEventData>" "Event<UserUpdated>")
      | Except.ok update_event =>
        match entity with
        | none => Except.error (EventError.MissingEntity "User" "UserUpdated")
        | some e => e.try_aggregate_update update_event
    | UserEventData.UserDeleted _ =>
      match event.try_into_variant_UserDeleted with
      | Except.error _ =>
          Except.error (EventError.ConversionError "Event<UserEventData>" "Event<UserDeleted>")
      | Except.ok delete_event =>
        match entity with
        | none => Except.error (EventError.MissingEntity "User" "UserDeleted")
        | some e =>
          match e.try_aggregate_delete delete_event with
          | Except.ok e' => Except.ok e'
          | Except.error e' => e'.elim
  | none =>
    match entity with
    | some e => Except.ok e
    | none => Except.error (EventError.MissingEntity "User" "N/A")

/-- serde deserializer for the `UserCreated` struct: an object whose `name`
field is a string (serde ignores unknown fields by default). -/
def UserCreated.from_value : Json → Except String UserCreated
  | Json.obj fields =>
    match Json.lookup fields "name" with
    | some (Json.str s) => Except.ok { name := s }
    | _ => Except.error "missing field name"
  | _ => Except.error "invalid type, expected struct UserCreated"

/-- serde deserializer for the `UserUpdated` struct (same shape as
`UserCreated`). -/
def UserUpdated.from_value : Json → Except String UserUpdated
  | Json.obj fields =>
    match Json.lookup fields "name" with
    | some (Json.str s) => Except.ok { name := s }
    | _ => Except.error "missing field name"
  | _ => Except.error "invalid type, expected struct UserUpdated"

/-- serde deserializer for the `UserDeleted` unit struct: accepts `null`. -/
def UserDeleted.from_value : Json → Except String UserDeleted
  | Json.null => Except.ok UserDeleted.mk
  | _ => Except.error "invalid type, expected unit struct UserDeleted"

/-- The serde-derived deserializer of the adjacently tagged enum
`#[serde(tag = "event_type", content = "data")] UserEventData`: the
`event_type` tag selects the variant and the `data` content is decoded with
that variant's payload deserializer — never by trying variants in
declaration order. -/
def UserEventData.from_tagged (tag : String) (content : Json) :
    Except String UserEventData :=
  if tag = "UserCreated" then
    (UserCreated.from_value content).map UserEventData.UserCreated
  else if tag = "UserUpdated" then
    (UserUpdated.from_value content).map UserEventData.UserUpdated
  else if tag = "UserDeleted" then
    (UserDeleted.from_value content).map UserEventData.UserDeleted
  else
    Except.error ("unknown variant " ++ tag)

/-!
## The sqlx storage adapter (`src/storage-sqlx/src/lib.rs`)

The observable database state is the list of committed rows. A transaction
accumulates pending rows; per the storage-backend contract, writes staged in
a transaction become observable only at `commit`, and a transaction dropped
without commit (as happens when a `?` propagates a storage error) is rolled
back, leaving the store unchanged. The outcomes of the individual sqlx
inserts are injected as explicit oracles (`Option Err`: `none` = success,
`some e` = the database reported error `e`).
-/

/-- A row of the backing database: either a row of the `events` table or a
row of an entity table. -/
inductive DBRow (EntRow : Type) : Type where
  | event (ev : DBEvent) : DBRow EntRow
  | entity (r : EntRow) : DBRow EntRow

/-- `SqlxPgStore`: the backing store, abstracted to its observable committed
rows. -/
structure SqlxPgStore (EntRow : Type) where
  committed : List (DBRow EntRow)

/-- `SqlxPgStoreTransaction`: rows staged inside an open transaction,
visible only within it until commit. -/
structure SqlxPgStoreTransaction (EntRow : Type) where
  pending : List (DBRow EntRow)

/-- `SqlxPgStore::transaction` / `pool.begin()`: open a transaction with no
pending writes. -/
def SqlxPgStore.transaction (_store : SqlxPgStore EntRow) : SqlxPgStoreTransaction EntRow :=
  { pending := [] }

/-- `SqlxPgStoreTransaction::commit`: publish the pending writes into the
store's committed state. This is the only operation that changes the
observable store. -/
def SqlxPgStoreTransaction.commit (tx : SqlxPgStoreTransaction EntRow)
    (store : SqlxPgStore EntRow) : SqlxPgStore EntRow :=
  { committed := store.committed ++ tx.pending }

/-- `TryFrom<Event<S>> for DBEvent` of the current crate. Modelled from the
spec: the conversion's source file is absent from `src/`; the spec says the
conversion "serializes the payload" and leaves the other fields as is, and
the `events` schema shows `sequence_number` is assigned by the database
(`serial`), so it is `None` before insertion. -/
def DBEvent.from_event (to_value : D → Json) (other : Event D) : DBEvent :=
  { id := other.id
    sequence_number := none
    event_type := other.event_type
    entity_type := other.entity_type
    entity_id := other.entity_id
    session_id := other.session_id
    purger_id := other.purger_id
    created_at := other.created_at
    purged_at := other.purged_at
    data := other.data.map to_value }

/-- `Persistable<SqlxPgStoreTransaction, DBEvent> for DBEvent`
(`src/storage-sqlx/src/lib.rs`, lines 106–145): insert/upsert the event row
inside the transaction; the database's verdict on the insert is the
`outcome` oracle. -/
def DBEvent.persist (self : DBEvent) (outcome : Option Err)
    (tx : SqlxPgStoreTransaction EntRow) : Except Err (SqlxPgStoreTransaction EntRow) :=
  match outcome with
  | some e => Except.error e
  | none => Except.ok { pending := tx.pending ++ [DBRow.event self] }

/-- The entity's `Persistable` impl (supplied by the consumer): on success
it stages `rows` in the transaction and returns the saved entity `result`;
on failure the database reports an error. -/
def Entity.persist (rows : List EntRow) (outcome : Option Err) (result : E)
    (tx : SqlxPgStoreTransaction EntRow) :
    Except Err (E × SqlxPgStoreTransaction EntRow) :=
  match outcome with
  | some e => Except.error e
  | none => Except.ok (result, { pending := tx.pending ++ rows.map DBRow.entity })

/-- `StorageBuilderPersist::stage_persist for StorageBuilder`
(`src/storage-sqlx/src/lib.rs`, lines 153–163): convert the event into a
`DBEvent`, persist it, then persist the entity, all inside the
caller-supplied transaction; no commit. -/
def StorageBuilder.stage_persist (to_value : D → Json) (sb : StorageBuilder E D)
    (event_outcome : Option Err) (entity_rows : List EntRow)
    (entity_outcome : Option Err) (new_entity : E)
    (tx : SqlxPgStoreTransaction EntRow) :
    Except Err (E × SqlxPgStoreTransaction EntRow) :=
  let db_event := DBEvent.from_event to_value sb.event
  match db_event.persist event_outcome tx with
  | Except.error e => Except.error e
  | Except.ok tx => Entity.persist entity_rows entity_outcome new_entity tx

/-- `StorageBuilderPersist::persist for StorageBuilder`
(`src/storage-sqlx/src/lib.rs`, lines 165–181): open a transaction, persist
the converted event, persist the entity, and only then commit. A `?` on
either persist returns before `tx.commit()` is reached, so the dropped
transaction is rolled back and the observable store is unchanged. Returns
the call's result together with the resulting observable store. -/
def StorageBuilder.persist (to_value : D → Json) (sb : StorageBuilder E D)
    (event_outcome : Option Err) (entity_rows : List EntRow)
    (entity_outcome : Option Err) (new_entity : E) (store : SqlxPgStore EntRow) :
    Except Err E × SqlxPgStore EntRow :=
  let tx := store.transaction
  let db_event := DBEvent.from_event to_value sb.event
  match db_event.persist event_outcome tx with
  | Except.error e => (Except.error e, store)
  | Except.ok tx =>
    match Entity.persist entity_rows entity_outcome new_entity tx with
    | Except.error e => (Except.error e, store)
    | Except.ok (new_e, tx) => (Except.ok new_e, tx.commit store)

/-!
## Concrete sample inputs

Closed values used to instantiate the universally quantified theorems in
witnesses and counterexamples.
-/

/-- A sample user. -/
def sampleUser : User :=
  { id := 0, name := "Henry Jekyll", conflicted := false }

/-- serde serializer for the `UserCreated` struct, matching
`UserCreated.from_value`. -/
def UserCreated.to_value (d : UserCreated) : Except String Json :=
  Except.ok (Json.obj [("name", Json.str d.name)])

/-- A purge builder on which no session id was ever set. -/
def samplePurgeBuilder : PurgeEventBuilder UserCreated :=
  PurgeEventBuilder.new { name := "Henry Jekyll" }

/-- The event built by the sessionless purge builder. -/
def samplePurgeEvent : Event UserCreated :=
  samplePurgeBuilder.build_with_entity_id UserCreated.eventDataImpl User.entityImpl 7 3 11 12

/-- A sample already-applied event whose `entity_id` (1) differs from
`sampleUser.id` (0). -/
def sampleAppliedEvent : Event UserEventData :=
  { id := 42
    event_type := "UserUpdated"
    entity_type := "users"
    entity_id := 1
    session_id := none
    purger_id := none
    data := some (UserEventData.UserUpdated { name := "Edward Hyde" })
    created_at := 5
    purged_at := none }

/-- A conflict builder over `sampleAppliedEvent`. -/
def sampleConflictBuilder : ConflictEventBuilder UserEventData UserEventData :=
  ConflictEventBuilder.new
    { applied_event := sampleAppliedEvent
      conflicting_event_data := UserEventData.UserUpdated { name := "Danvers Carew" } }

/-- The storage builder produced by flagging the conflict on `sampleUser`. -/
def sampleFlaggedSb : StorageBuilder User (ConflictData UserEventData UserEventData) :=
  StorageBuilder.new { id := 0, name := "Henry Jekyll", conflicted := true }
    (sampleConflictBuilder.build_with_entity_id User.entityImpl 5 9)

/-- A sample first-revision event with a `UserCreated` payload. -/
def sampleEventV1 : EventV1 UserCreated :=
  { id := 1
    event_type := "UserCreated"
    entity_type := "users"
    entity_id := 2
    session_id := 3
    data := { name := "Bobby" }
    created_at := 4 }

/-- A sample update builder. -/
def sampleUpdateBuilder : UpdateEventBuilder UserUpdated :=
  UpdateEventBuilder.new { name := "Edward Hyde" }

/-- The storage builder produced by `try_update` on `sampleUser` with
`sampleUpdateBuilder`, fresh id 8, timestamp 13. -/
def sampleUpdatedSb : StorageBuilder User UserUpdated :=
  StorageBuilder.new { id := 0, name := "Edward Hyde", conflicted := false }
    (sampleUpdateBuilder.build_with_entity_id UserUpdated.eventDataImpl User.entityImpl 0 8 13)

/-- A sample `DBEvent` carrying `event_type = "UserUpdated"` with a payload
shape (`{"name": ...}`) shared structurally by `UserCreated`. -/
def sampleTaggedDBEvent : DBEvent :=
  { id := 21
    sequence_number := some 42
    event_type := "UserUpdated"
    entity_type := "users"
    entity_id := 6
    session_id := some 9
    purger_id := none
    created_at := 17
    purged_at := none
    data := some (Json.obj [("name", Json.str "Fred")]) }

/-- A sample purged action event: `data = None`. -/
def samplePurgedActionEvent : Event UserEventData :=
  { id := 33
    event_type := "UserUpdated"
    entity_type := "users"
    entity_id := 0
    session_id := none
    purger_id := some 2
    data := none
    created_at := 6
    purged_at := some 7 }

/-- A sample event/entity pair awaiting persistence. -/
def samplePersistSb : StorageBuilder User UserCreated :=
  StorageBuilder.new sampleUser
    ((CreateEventBuilder.new { name := "Henry Jekyll" } 0).build
      UserCreated.eventDataImpl User.entityImpl 4 5)

/-- Total serde serializer for `UserCreated` (serialization of a plain
struct payload cannot fail). -/
def UserCreated.to_json (d : UserCreated) : Json :=
  Json.obj [("name", Json.str d.name)]

/-- An empty backing store over trivial entity rows. -/
def sampleEmptyStore : SqlxPgStore Unit :=
  { committed := [] }

/-- A sample `DBEvent` whose `data` column holds JSON `null`
(`Some(Value::Null)`). -/
def sampleNullDataDBEvent : DBEvent :=
  { id := 51
    sequence_number := none
    event_type := "UserUpdated"
    entity_type := "users"
    entity_id := 3
    session_id := none
    purger_id := some 4
    created_at := 19
    purged_at := some 20
    data := some Json.null }

/-!
## Theorems
-/

/-- C1 (counterexample): a purge builder on which no session id was set
produces an event with `data = None` and `purged_at = Some(..)` but
`purger_id = None` (since `purger_id` is copied from the absent
`session_id`), so the claimed pairwise equivalence of `data.is_none()`,
`purged_at.is_some()` and `purger_id.is_some()` fails on this purge-built
event. -/
theorem c1_purge_flag_equivalence_counterexample :
    samplePurgeEvent.data.isNone = true ∧
    samplePurgeEvent.purged_at.isSome = true ∧
    samplePurgeEvent.purger_id.isSome = false ∧
    samplePurgeEvent.data.isNone ≠ samplePurgeEvent.purger_id.isSome := by
  refine ⟨rfl, rfl, rfl, ?_⟩
  decide

/-- C1 (amended): for every event produced by any event builder, the
equivalence `data.is_none() ⟺ purged_at.is_some()` holds; every
non-purge-built event (create, update, delete, action, conflict — through
either build form) has `data = Some(payload)`, `purger_id = None` and
`purged_at = None` (all three purge conditions false), while a purge-built
event has `data = None`, `purged_at = Some(..)` and `purger_id` equal to
the builder's `session_id` — so `purger_id.is_some()` joins the
equivalence exactly when a session id was set on the purge builder. -/
theorem c1_purge_flag_equivalence_amended
    (di : EventDataImpl D) (ei : EntityImpl E)
    (cb : CreateEventBuilder D) (ub : UpdateEventBuilder D) (dl : DeleteEventBuilder D)
    (pb : PurgeEventBuilder D) (ab : ActionEventBuilder D)
    (cfb : ConflictEventBuilder EDA EDC)
    (entity : E) (optEntity : Option E) (eid f fe t t2 : Nat) :
    ((cb.build di ei f t).data = some cb.payload ∧
      (cb.build di ei f t).purger_id = none ∧
      (cb.build di ei f t).purged_at = none) ∧
    ((ub.build di ei entity f t).data = some ub.payload ∧
      (ub.build di ei entity f t).purger_id = none ∧
      (ub.build di ei entity f t).purged_at = none) ∧
    ((ub.build_with_entity_id di ei eid f t).data = some ub.payload ∧
      (ub.build_with_entity_id di ei eid f t).purger_id = none ∧
      (ub.build_with_entity_id di ei eid f t).purged_at = none) ∧
    ((dl.build di ei entity f t).data = some dl.payload ∧
      (dl.build di ei entity f t).purger_id = none ∧
      (dl.build di ei entity f t).purged_at = none) ∧
    ((dl.build_with_entity_id di ei eid f t).data = some dl.payload ∧
      (dl.build_with_entity_id di ei eid f t).purger_id = none ∧
      (dl.build_with_entity_id di ei eid f t).purged_at = none) ∧
    ((ab.build di ei optEntity f fe t).data = some ab.payload ∧
      (ab.build di ei optEntity f fe t).purger_id = none ∧
      (ab.build di ei optEntity f fe t).purged_at = none) ∧
    ((cfb.build ei entity f t).data = some cfb.payload ∧
      (cfb.build ei entity f t).purger_id = none ∧
      (cfb.build ei entity f t).purged_at = none) ∧
    ((cfb.build_with_entity_id ei f t).data = some cfb.payload ∧
      (cfb.build_with_entity_id ei f t).purger_id = none ∧
      (cfb.build_with_entity_id ei f t).purged_at = none) ∧
    ((pb.build_with_entity_id di ei eid f t t2).data = none ∧
      (pb.build_with_entity_id di ei eid f t t2).purged_at = some t2 ∧
      (pb.build_with_entity_id di ei eid f t t2).purger_id = pb.session_id ∧
      (pb.build_with_entity_id di ei eid f t t2).data.isNone
        = (pb.build_with_entity_id di ei eid f t t2).purged_at.isSome) :=
  ⟨⟨rfl, rfl, rfl⟩, ⟨rfl, rfl, rfl⟩, ⟨rfl, rfl, rfl⟩, ⟨rfl, rfl, rfl⟩, ⟨rfl, rfl, rfl⟩,
    ⟨rfl, rfl, rfl⟩, ⟨rfl, rfl, rfl⟩, ⟨rfl, rfl, rfl⟩, ⟨rfl, rfl, rfl, rfl⟩⟩

/-- C2 (counterexample): flagging a conflict on `sampleUser` (id 0) with a
conflict payload whose `applied_event.entity_id` is 1 yields an event whose
`entity_id` (1) differs from the entity's own id (0), so the event is not
built with the current entity's id. -/
theorem c2_flag_conflict_entity_id_counterexample :
    (ConflictEntityBuilder.try_flag_conflict User.entityImpl User.try_aggregate_conflict
        sampleUser sampleConflictBuilder 5 9).map
      (fun sb => sb.event.entity_id == User.entityImpl.entity_id sampleUser) =
      Except.ok false := rfl

/-- C2 (amended): the event built by
`ConflictEntityBuilder::try_flag_conflict` carries the entity id of the
conflict payload's `applied_event`, not the current entity's id (the two
coincide exactly when the applied event was recorded against that same
entity). -/
theorem c2_flag_conflict_entity_id_amended (ei : EntityImpl E)
    (agg : E → Event (ConflictData EDA EDC) → Except Err E)
    (self : E) (b : ConflictEventBuilder EDA EDC) (freshId now : Nat)
    (sb : StorageBuilder E (ConflictData EDA EDC))
    (h : ConflictEntityBuilder.try_flag_conflict ei agg self b freshId now = Except.ok sb) :
    sb.event.entity_id = b.payload.applied_event.entity_id := by
  unfold ConflictEntityBuilder.try_flag_conflict at h
  simp only [] at h
  cases hagg : agg self (b.build_with_entity_id ei freshId now) with
  | error e => rw [hagg] at h; cases h
  | ok ent => rw [hagg] at h; cases h; rfl

/-- Witness for C2's amended statement at the concrete `User` model. -/
theorem c2_flag_conflict_entity_id_amended_witness :
    ConflictEntityBuilder.try_flag_conflict User.entityImpl User.try_aggregate_conflict
        sampleUser sampleConflictBuilder 5 9 = Except.ok sampleFlaggedSb ∧
    sampleFlaggedSb.event.entity_id = sampleConflictBuilder.payload.applied_event.entity_id :=
  ⟨rfl,
    c2_flag_conflict_entity_id_amended User.entityImpl User.try_aggregate_conflict
      sampleUser sampleConflictBuilder 5 9 sampleFlaggedSb rfl⟩

/-- C3: assuming serde's round-trip law for the payload codec, converting an
`Event<D>` to a `DBEvent` (serializing the payload) and back (deserializing)
yields an event equal to the original in every field, the payload included. -/
theorem c3_event_dbevent_roundtrip
    (to_value : D → Except String Json) (from_value : Json → Except String D)
    (law : ∀ d : D, ∃ j, to_value d = Except.ok j ∧ from_value j = Except.ok d)
    (ev : EventV1 D) :
    (DBEventV1.try_from to_value ev).bind (EventV1.try_from from_value) = Except.ok ev := by
  obtain ⟨j, hj1, hj2⟩ := law ev.data
  simp only [DBEventV1.try_from, EventV1.try_from, hj1, Except.bind, hj2]

/-- Witness for C3: the `UserCreated` codec satisfies serde's round-trip
law, and the round trip is the identity on `sampleEventV1`. -/
theorem c3_event_dbevent_roundtrip_witness :
    (∀ d : UserCreated, ∃ j, UserCreated.to_value d = Except.ok j ∧
        UserCreated.from_value j = Except.ok d) ∧
    (DBEventV1.try_from UserCreated.to_value sampleEventV1).bind
        (EventV1.try_from UserCreated.from_value) = Except.ok sampleEventV1 :=
  ⟨fun d => ⟨Json.obj [("name", Json.str d.name)], rfl, rfl⟩,
    c3_event_dbevent_roundtrip UserCreated.to_value UserCreated.from_value
      (fun d => ⟨Json.obj [("name", Json.str d.name)], rfl, rfl⟩) sampleEventV1⟩

/-- C6: decoding a `DBEvent` whose `event_type` is `"UserUpdated"` and whose
payload shape (`{"name": ...}`) is structurally shared with `UserCreated`
into an `Event<UserEventData>` selects exactly the `UserUpdated` variant
(tag-driven) — even though the same payload also decodes as `UserCreated`
(first conjunct), the earlier structurally-matching variant is not chosen. -/
theorem c6_enum_dispatch_by_tag (db : DBEvent) (s : String)
    (htype : db.event_type = "UserUpdated")
    (hdata : db.data = some (Json.obj [("name", Json.str s)])) :
    UserCreated.from_value (Json.obj [("name", Json.str s)]) =
      Except.ok { name := s } ∧
    Event.try_enum_event_from_db_event UserEventData.from_tagged db =
      Except.ok
        { id := db.id
          event_type := db.event_type
          entity_type := db.entity_type
          entity_id := db.entity_id
          session_id := db.session_id
          purger_id := db.purger_id
          created_at := db.created_at
          purged_at := db.purged_at
          data := some (UserEventData.UserUpdated { name := s }) } := by
  constructor
  · rfl
  · unfold Event.try_enum_event_from_db_event
    rw [htype, hdata]
    rfl

/-- Witness for C6 at `sampleTaggedDBEvent`. -/
theorem c6_enum_dispatch_by_tag_witness :
    (sampleTaggedDBEvent.event_type = "UserUpdated" ∧
      sampleTaggedDBEvent.data = some (Json.obj [("name", Json.str "Fred")])) ∧
    Event.try_enum_event_from_db_event UserEventData.from_tagged sampleTaggedDBEvent =
      Except.ok
        { id := 21
          event_type := "UserUpdated"
          entity_type := "users"
          entity_id := 6
          session_id := some 9
          purger_id := none
          created_at := 17
          purged_at := none
          data := some (UserEventData.UserUpdated { name := "Fred" }) } :=
  ⟨⟨rfl, rfl⟩, (c6_enum_dispatch_by_tag sampleTaggedDBEvent "Fred" rfl rfl).2⟩

/-- C8: in `StorageBuilderPersist::persist`, if persisting the event or
persisting the entity reports a storage error, the transaction is never
committed and the observable store is unchanged; on success the store gains
exactly the event row and the entity rows together — so either both parts
of the (event, entity) pair are committed, or neither is. -/
theorem c8_atomic_persist (to_value : D → Json) (sb : StorageBuilder E D)
    (event_outcome : Option Err) (entity_rows : List EntRow)
    (entity_outcome : Option Err) (new_entity : E) (store : SqlxPgStore EntRow) :
    (∀ e, (StorageBuilder.persist to_value sb event_outcome entity_rows entity_outcome
            new_entity store).1 = Except.error e →
      (StorageBuilder.persist to_value sb event_outcome entity_rows entity_outcome
          new_entity store).2 = store) ∧
    (∀ ent, (StorageBuilder.persist to_value sb event_outcome entity_rows entity_outcome
            new_entity store).1 = Except.ok ent →
      (StorageBuilder.persist to_value sb event_outcome entity_rows entity_outcome
          new_entity store).2.committed =
        store.committed ++ DBRow.event (DBEvent.from_event to_value sb.event)
          :: entity_rows.map DBRow.entity) := by
  cases event_outcome with
  | some e =>
      exact ⟨fun _ _ => rfl, fun ent hent => nomatch hent⟩
  | none =>
      cases entity_outcome with
      | some e2 => exact ⟨fun _ _ => rfl, fun ent hent => nomatch hent⟩
      | none => exact ⟨(fun e he => nomatch he), fun ent _ => rfl⟩

/-- Witness for C8: a failed event insert leaves the store unchanged, and
with both inserts succeeding both rows are committed together. -/
theorem c8_atomic_persist_witness :
    ((StorageBuilder.persist UserCreated.to_json samplePersistSb (some ()) ([] : List Unit)
          none sampleUser sampleEmptyStore).1 = Except.error () ∧
      (StorageBuilder.persist UserCreated.to_json samplePersistSb (some ()) ([] : List Unit)
          none sampleUser sampleEmptyStore).2 = sampleEmptyStore) ∧
    ((StorageBuilder.persist UserCreated.to_json samplePersistSb (none : Option Unit)
          ([()] : List Unit) none sampleUser sampleEmptyStore).1 = Except.ok sampleUser ∧
      (StorageBuilder.persist UserCreated.to_json samplePersistSb (none : Option Unit)
          ([()] : List Unit) none sampleUser sampleEmptyStore).2.committed =
        sampleEmptyStore.committed
          ++ DBRow.event (DBEvent.from_event UserCreated.to_json samplePersistSb.event)
            :: ([()] : List Unit).map DBRow.entity) :=
  ⟨⟨rfl,
      (c8_atomic_persist UserCreated.to_json samplePersistSb (some ()) ([] : List Unit)
          none sampleUser sampleEmptyStore).1 () rfl⟩,
    ⟨rfl,
      (c8_atomic_persist UserCreated.to_json samplePersistSb (none : Option Unit)
          ([()] : List Unit) none sampleUser sampleEmptyStore).2 sampleUser rfl⟩⟩

/-- C9: whenever `check_conflict` returns `Err(ConflictData)` and the
conflict is routed through `try_flag_conflict` with `User`'s
`AggregateConflict` impl, every field of the resulting entity other than
the `conflicted` flag (`id` and `name`) equals its value before the
conflicting update, and only the flag is set — the conflicting payload's
content is never applied. -/
theorem c9_conflict_non_corruption (ed : UserEventData) (applied : Event UserEventData)
    (cd : ConflictData UserEventData UserEventData)
    (e : User) (freshId now : Nat)
    (sb : StorageBuilder User (ConflictData UserEventData UserEventData))
    (_hconf : ed.check_conflict applied = Except.error cd)
    (h : ConflictEntityBuilder.try_flag_conflict User.entityImpl
          User.try_aggregate_conflict e (ConflictEventBuilder.new cd)
          freshId now = Except.ok sb) :
    sb.entity.id = e.id ∧ sb.entity.name = e.name ∧ sb.entity.conflicted = true := by
  unfold ConflictEntityBuilder.try_flag_conflict at h
  simp only [User.try_aggregate_conflict] at h
  cases h
  exact ⟨rfl, rfl, rfl⟩

/-- Witness for C9: the conflicting `UserUpdated("Danvers Carew")` payload
conflicts with `sampleAppliedEvent`, and flagging that conflict on
`sampleUser` leaves id and name unchanged, only setting the flag. -/
theorem c9_conflict_non_corruption_witness :
    (UserEventData.UserUpdated { name := "Danvers Carew" }).check_conflict
        sampleAppliedEvent = Except.error sampleConflictBuilder.payload ∧
    ConflictEntityBuilder.try_flag_conflict User.entityImpl User.try_aggregate_conflict
        sampleUser (ConflictEventBuilder.new sampleConflictBuilder.payload) 5 9 =
      Except.ok sampleFlaggedSb ∧
    (sampleFlaggedSb.entity.id = sampleUser.id ∧
      sampleFlaggedSb.entity.name = sampleUser.name ∧
      sampleFlaggedSb.entity.conflicted = true) :=
  ⟨rfl, rfl,
    c9_conflict_non_corruption (UserEventData.UserUpdated { name := "Danvers Carew" })
      sampleAppliedEvent sampleConflictBuilder.payload sampleUser 5 9 sampleFlaggedSb
      rfl rfl⟩

/-- C4: for every payload, entity and optional session id, the event
produced by `PurgeEventBuilder`'s build (both the `build(entity)` form and
the `build_with_entity_id` form it delegates to) has `data = None`,
`purged_at = Some` of the build-time timestamp, and `purger_id` equal to
the builder's `session_id` — in particular `purger_id == session_id` also
when no session id was set. -/
theorem c4_purge_build_fields (di : EventDataImpl D) (ei : EntityImpl E)
    (b : PurgeEventBuilder D) (entity : E) (entity_id freshId createdNow purgedNow : Nat) :
    ((b.build di ei entity freshId createdNow purgedNow).data = none ∧
      (b.build di ei entity freshId createdNow purgedNow).purged_at = some purgedNow ∧
      (b.build di ei entity freshId createdNow purgedNow).purger_id = b.session_id) ∧
    ((b.build_with_entity_id di ei entity_id freshId createdNow purgedNow).data = none ∧
      (b.build_with_entity_id di ei entity_id freshId createdNow purgedNow).purged_at
        = some purgedNow ∧
      (b.build_with_entity_id di ei entity_id freshId createdNow purgedNow).purger_id
        = b.session_id) :=
  ⟨⟨rfl, rfl, rfl⟩, ⟨rfl, rfl, rfl⟩⟩

/-- C5: the event produced by `UpdateEventBuilder::build(entity)` — and
likewise the event inside the `StorageBuilder` returned by
`UpdateEntityBuilder::try_update` — has `entity_id` equal to
`entity.entity_id()`, regardless of anything set on the builder. -/
theorem c5_update_event_entity_id (di : EventDataImpl D) (ei : EntityImpl E)
    (agg : E → Event D → Except Err E) (entity : E) (b : UpdateEventBuilder D)
    (freshId now : Nat) :
    (b.build di ei entity freshId now).entity_id = ei.entity_id entity ∧
    ∀ sb : StorageBuilder E D,
      UpdateEntityBuilder.try_update di ei agg entity b freshId now = Except.ok sb →
        sb.event.entity_id = ei.entity_id entity := by
  refine ⟨rfl, fun sb h => ?_⟩
  unfold UpdateEntityBuilder.try_update at h
  simp only [] at h
  cases hagg : agg entity (b.build_with_entity_id di ei (ei.entity_id entity) freshId now) with
  | error e => rw [hagg] at h; cases h
  | ok ent =>
      rw [hagg] at h
      cases h
      rfl

/-- Witness for C5 at the concrete `User` model: `try_update` of
`sampleUser` with `sampleUpdateBuilder` succeeds with the event's
`entity_id` equal to the user's id. -/
theorem c5_update_event_entity_id_witness :
    UpdateEntityBuilder.try_update UserUpdated.eventDataImpl User.entityImpl
        User.try_aggregate_update sampleUser sampleUpdateBuilder 8 13 =
      Except.ok sampleUpdatedSb ∧
    sampleUpdatedSb.event.entity_id = User.entityImpl.entity_id sampleUser :=
  ⟨rfl,
    (c5_update_event_entity_id UserUpdated.eventDataImpl User.entityImpl
        User.try_aggregate_update sampleUser sampleUpdateBuilder 8 13).2
      sampleUpdatedSb rfl⟩

/-- C7: `AggregateAction for User::try_aggregate_action` with a purged
(`data = None`) event and `Some(entity)` is a no-op returning the entity
unchanged, and with `entity = None` it is a missing-entity error. -/
theorem c7_action_purged_noop (e : User) (event : Event UserEventData)
    (h : event.data = none) :
    User.try_aggregate_action (some e) event = Except.ok e ∧
    User.try_aggregate_action none event =
      Except.error (EventError.MissingEntity "User" "N/A") := by
  unfold User.try_aggregate_action
  rw [h]
  exact ⟨rfl, rfl⟩

/-- Witness for C7 at the concrete purged event. -/
theorem c7_action_purged_noop_witness :
    samplePurgedActionEvent.data = none ∧
    (User.try_aggregate_action (some sampleUser) samplePurgedActionEvent =
        Except.ok sampleUser ∧
      User.try_aggregate_action none samplePurgedActionEvent =
        Except.error (EventError.MissingEntity "User" "N/A")) :=
  ⟨rfl, c7_action_purged_noop sampleUser samplePurgedActionEvent rfl⟩

/-- C10: for every payload type and every `DBEvent` whose `data` field is
`Some(JSON null)`, the `DBEvent → Event` conversion succeeds with
`data = None` rather than failing, because a present `data` value is
deserialized at type `Option<D>` and serde maps `null` to `None`. -/
theorem c10_null_payload_decodes_to_none (from_value : Json → Except String D)
    (db : DBEvent) (h : db.data = some Json.null) :
    Event.try_from (from_value_option from_value) db =
      Except.ok
        { id := db.id
          event_type := db.event_type
          entity_type := db.entity_type
          entity_id := db.entity_id
          session_id := db.session_id
          purger_id := db.purger_id
          created_at := db.created_at
          purged_at := db.purged_at
          data := (none : Option D) } := by
  unfold Event.try_from
  rw [h]
  rfl

/-- Witness for C10 at a concrete `DBEvent` with a null `data` column,
decoded at payload type `UserCreated`. -/
theorem c10_null_payload_decodes_to_none_witness :
    sampleNullDataDBEvent.data = some Json.null ∧
    Event.try_from (from_value_option UserCreated.from_value) sampleNullDataDBEvent =
      Except.ok
        { id := 51
          event_type := "UserUpdated"
          entity_type := "users"
          entity_id := 3
          session_id := none
          purger_id := some 4
          created_at := 19
          purged_at := some 20
          data := (none : Option UserCreated) } :=
  ⟨rfl, c10_null_payload_decodes_to_none UserCreated.from_value sampleNullDataDBEvent rfl⟩

end EventSauce
